import Mathlib

/-!
# CocktailCalculator: verification of the recipe model and cost engine

Shallow embedding of the CocktailCalculator repository (files `model.py`,
`calc.py` and the calculation logic of `cost_dialog.py`).  Python `Decimal`
values are modelled as exact rationals (every finite `Decimal` is a rational;
the process-wide 28-significant-digit context never rounds for the magnitudes
this program works with, so `Decimal` arithmetic is modelled exactly).
Python exceptions are modelled with an explicit error type and `Except`.
-/

namespace CocktailCalc

/-- Python exceptions raised by the modelled code: `ValueError` (with its
message), `KeyError` (with the missing key) and `decimal.InvalidOperation`. -/
inductive PyError where
  | valueError (msg : String)
  | keyError (key : String)
  | invalidOperation
  deriving DecidableEq, Repr

/-- Rounding of a rational to an integer, half away from zero: the behaviour
of Python `decimal.ROUND_HALF_UP`. -/
def roundHalfAwayFromZero (x : ℚ) : ℤ :=
  if 0 ≤ x then ⌊x + 1 / 2⌋ else -⌊-x + 1 / 2⌋

/-- `Decimal.quantize` with exponent `10 ^ (-k)` and rounding
`ROUND_HALF_UP`: round to `k` fractional digits, halves away from zero. -/
def quantizeHalfUp (k : ℕ) (x : ℚ) : ℚ :=
  (roundHalfAwayFromZero (x * (10 : ℚ) ^ k) : ℚ) / (10 : ℚ) ^ k

/-- Python `s.strip()`: drop whitespace from both ends of the string
(modelled on the character list; Python strips a slightly larger Unicode
whitespace class, which none of the modelled string literals use). -/
def pyStrip (s : String) : String :=
  ⟨((s.data.dropWhile Char.isWhitespace).reverse.dropWhile Char.isWhitespace).reverse⟩

/-- Python's `not s or not s.strip()`: the string is empty or consists of
whitespace only. -/
def blank (s : String) : Bool :=
  s.data.all Char.isWhitespace

/-- The `Ingredient` dataclass of `model.py` (fields after normalisation:
both numeric fields hold exact decimals, modelled as rationals). -/
structure Ingredient where
  name : String
  quantity : ℚ
  unit : String
  price_per_unit : ℚ
  deriving DecidableEq, Repr

/-- A numeric input accepted by `Ingredient.__post_init__`: Python `int`,
`float`, `str` or an already-built `Decimal`.  The code normalises the first
three with `Decimal(str(x))`; `str` of a float is its shortest decimal
representation, so each case carries the exact decimal value the
normalisation produces (never a binary-float value). -/
inductive NumInput where
  | ofInt (n : ℤ)
  | ofFloat (decimalRepr : ℚ)
  | ofStr (q : ℚ)
  | ofDecimal (q : ℚ)
  deriving DecidableEq, Repr

/-- The value `Decimal(str(x))` produced by the normalisation in
`Ingredient.__post_init__` (identity on an already-`Decimal` input). -/
def NumInput.normalize : NumInput → ℚ
  | .ofInt n => (n : ℚ)
  | .ofFloat d => d
  | .ofStr q => q
  | .ofDecimal q => q

/-- `Ingredient(...)` construction: `__post_init__` of `model.py` normalises
the numeric fields and validates name / quantity / price_per_unit, raising
`ValueError` on violation. -/
def Ingredient.make (name : String) (quantity : NumInput) (unit : String)
    (price_per_unit : NumInput) : Except PyError Ingredient :=
  let q := quantity.normalize
  let p := price_per_unit.normalize
  if blank name then
    .error (.valueError "Ingredient name must be non-empty")
  else if q ≤ 0 then
    .error (.valueError "Ingredient quantity must be > 0")
  else if p < 0 then
    .error (.valueError "Ingredient price_per_unit must be >= 0")
  else
    .ok ⟨name, q, unit, p⟩

/-- The construction invariant of `Ingredient` (established by
`__post_init__`). -/
abbrev Ingredient.Valid (i : Ingredient) : Prop :=
  blank i.name = false ∧ 0 < i.quantity ∧ 0 ≤ i.price_per_unit

/-- The `Recipe` dataclass of `model.py` (plain construction, no
validation; `servings` is a Python `int`). -/
structure Recipe where
  name : String
  ingredients : List Ingredient
  servings : ℤ
  deriving DecidableEq, Repr

/-- `calc.py` money quantum: two fractional digits, `ROUND_HALF_UP`. -/
def quantizeMoney (d : ℚ) : ℚ :=
  quantizeHalfUp 2 d

/-- `calculate_total_cost` of `calc.py`: accumulate
`quantity * price_per_unit` over the ingredient list, then quantize once to
two decimals. -/
def calculate_total_cost (recipe : Recipe) : ℚ :=
  quantizeMoney (recipe.ingredients.foldl
    (fun total ing => total + ing.quantity * ing.price_per_unit) 0)

/-- `calculate_cost_per_serving` of `calc.py`: raise `ValueError` on
`servings <= 0`, otherwise divide the total by the servings and quantize. -/
def calculate_cost_per_serving (recipe : Recipe) : Except PyError ℚ :=
  if recipe.servings ≤ 0 then
    .error (.valueError "Servings must be >= 1")
  else
    .ok (quantizeMoney (calculate_total_cost recipe / (recipe.servings : ℚ)))

/-- A value stored under a decimal key of a persisted record: either it
parses as a `Decimal` (the code applies `Decimal(str(value))`) or
`decimal.InvalidOperation` is raised on it. -/
inductive DecStr where
  | num (q : ℚ)
  | nonnum
  deriving DecidableEq, Repr

/-- The persisted mapping for one ingredient: each of the four keys may be
missing (`none`). -/
structure IngredientRecord where
  name : Option String
  quantity : Option DecStr
  unit : Option String
  price_per_unit : Option DecStr
  deriving DecidableEq, Repr

/-- Python `d[key]`: the value, or a `KeyError` naming the key. -/
def getKey {α : Type} (v : Option α) (key : String) : Except PyError α :=
  match v with
  | some x => .ok x
  | none => .error (.keyError key)

/-- `Decimal(str(v))` applied to a persisted decimal field. -/
def parseDec : DecStr → Except PyError ℚ
  | .num q => .ok q
  | .nonnum => .error .invalidOperation

/-- `Ingredient.to_dict` of `model.py`: every field is emitted; `str` of a
`Decimal` is an exact base-10 numeral, so the decimal fields are stored with
their exact values. -/
def Ingredient.to_dict (i : Ingredient) : IngredientRecord :=
  ⟨some i.name, some (.num i.quantity), some i.unit, some (.num i.price_per_unit)⟩

/-- `Ingredient.from_dict` of `model.py`: `name`, `quantity` and
`price_per_unit` are looked up with `d[...]` (a missing one raises
`KeyError`, in keyword order), `unit` with `d.get("unit", "")`; the decimal
strings go through `Decimal(str(...))` and the `Ingredient` constructor
re-runs the validation of `__post_init__`. -/
def Ingredient.from_dict (d : IngredientRecord) : Except PyError Ingredient := do
  let n ← getKey d.name "name"
  let qs ← getKey d.quantity "quantity"
  let q ← parseDec qs
  let u := d.unit.getD ""
  let ps ← getKey d.price_per_unit "price_per_unit"
  let p ← parseDec ps
  Ingredient.make n (.ofDecimal q) u (.ofDecimal p)

/-- The persisted mapping for a recipe; every key may be missing. -/
structure RecipeRecord where
  name : Option String
  servings : Option ℤ
  ingredients : Option (List IngredientRecord)
  deriving DecidableEq, Repr

/-- `Recipe.to_dict` of `model.py`. -/
def Recipe.to_dict (r : Recipe) : RecipeRecord :=
  ⟨some r.name, some r.servings, some (r.ingredients.map Ingredient.to_dict)⟩

/-- The list comprehension of `Recipe.from_dict`: ingredients are converted
left to right and the first exception aborts the whole load. -/
def ingredientsFromDicts : List IngredientRecord → Except PyError (List Ingredient)
  | [] => .ok []
  | d :: rest => do
    let i ← Ingredient.from_dict d
    let tl ← ingredientsFromDicts rest
    .ok (i :: tl)

/-- `Recipe.from_dict` of `model.py`: the three recipe-level keys are read
with `d.get(...)` and silently defaulted when missing (`name` to `""`,
`servings` to `1`, `ingredients` to `[]`). -/
def Recipe.from_dict (d : RecipeRecord) : Except PyError Recipe := do
  let ings ← ingredientsFromDicts (d.ingredients.getD [])
  .ok ⟨d.name.getD "", ings, d.servings.getD 1⟩

/-- `Recipe.validate` of `model.py`: `ValueError` on a blank name or
`servings < 1`; the ingredient loop only re-checks `isinstance`, which every
modelled `Ingredient` satisfies. -/
def Recipe.validate (r : Recipe) : Except PyError Unit :=
  if blank r.name then .error (.valueError "Recipe name is required")
  else if r.servings < 1 then .error (.valueError "Servings must be >= 1")
  else .ok ()

/-- Text held by one `QLineEdit` cell of the ingredient table, as far as the
calculation logic inspects it: empty, non-empty but not a decimal numeral,
or a decimal numeral with value `q`. -/
inductive CellText where
  | empty
  | invalid
  | num (q : ℚ)
  deriving DecidableEq, Repr

/-- The `try Decimal(text) except` pattern of `cost_dialog.py` with `None`
as the fallback. -/
def tryParse : CellText → Option ℚ
  | .num q => some q
  | _ => none

/-- The `try Decimal(text or "0") except Decimal("0")` pattern of
`_update_price_per_unit_for_row`. -/
def parseOrZero : CellText → ℚ
  | .empty => 0
  | .invalid => 0
  | .num q => q

/-- `_parse_decimal(text or "0")` of `cost_dialog.py`: empty text is read as
`0`, a non-numeric text raises `ValueError`. -/
def parseDecimalOr0 : CellText → Except PyError ℚ
  | .empty => .ok 0
  | .invalid => .error (.valueError "Invalid numeric value")
  | .num q => .ok q

/-- `_format_ppu` of `cost_dialog.py`: the numeric value of the displayed
string, quantized to two decimals with `ROUND_HALF_UP`. -/
def formatPpu (v : ℚ) : ℚ :=
  quantizeHalfUp 2 v

/-- What `_update_price_per_unit_for_row` does to the price-per-unit cell of
a row: leave it untouched, clear it, or set its text. -/
inductive PpuAction where
  | keep
  | clear
  | setText (v : ℚ)
  deriving DecidableEq, Repr

/-- `_update_price_per_unit_for_row` of `cost_dialog.py`, lines 446-498:
when the row price parses and both quantity and unit spec are positive, the
cell receives `_format_ppu` of `(row_price * (unit_spec / qty)).quantize six
digits`; otherwise, if the row-price text is non-empty, the cell is cleared;
with empty row-price text nothing happens. -/
def updatePricePerUnitForRow (rowPriceText qtyText unitSpecText : CellText) :
    PpuAction :=
  let rowPrice := tryParse rowPriceText
  let qty := parseOrZero qtyText
  let unitSpec := parseOrZero unitSpecText
  match rowPrice with
  | some p =>
    if 0 < qty ∧ 0 < unitSpec then
      .setText (formatPpu (quantizeHalfUp 6 (p * (unitSpec / qty))))
    else
      .clear
  | none =>
    match rowPriceText with
    | .empty => .keep
    | _ => .clear

/-- One ingredient row of the dialog table as `get_recipe` reads it. -/
structure RowData where
  name : String
  rowPrice : CellText
  qty : CellText
  unit : String
  ppu : CellText
  deriving DecidableEq, Repr

/-- The body of the row loop in `CocktailCostDialog.get_recipe`: a row with
a blank name is skipped (`none`); otherwise the quantity is parsed, the
entered row price is preferred (`price = row_price / qty` when it parses and
`qty > 0`), the displayed price-per-unit cell is the fallback, and the
`Ingredient` constructor validates the result. -/
def rowIngredient (row : RowData) : Except PyError (Option Ingredient) :=
  if blank row.name then .ok none
  else do
    let qty ← parseDecimalOr0 row.qty
    let unit := pyStrip row.unit
    let price ← match tryParse row.rowPrice with
      | some rp => if 0 < qty then pure (rp / qty) else parseDecimalOr0 row.ppu
      | none => parseDecimalOr0 row.ppu
    let ing ← Ingredient.make (pyStrip row.name) (.ofDecimal qty) unit
      (.ofDecimal price)
    .ok (some ing)

/-- The row loop of `get_recipe`: rows processed top to bottom, the first
exception aborts. -/
def collectIngredients : List RowData → Except PyError (List Ingredient)
  | [] => .ok []
  | row :: rest => do
    let o ← rowIngredient row
    let tl ← collectIngredients rest
    match o with
    | some i => .ok (i :: tl)
    | none => .ok tl

/-- `CocktailCostDialog.get_recipe`: the dialog name is stripped, servings
default to 1, and the table rows become the ingredient list. -/
def get_recipe (dialogName : String) (rows : List RowData) :
    Except PyError Recipe := do
  let ings ← collectIngredients rows
  .ok ⟨pyStrip dialogName, ings, 1⟩

/-- The operations of the system that consume an already-built `Recipe`
(and with it its `Ingredient` values). -/
inductive EngineOp where
  | totalCost
  | costPerServing
  | validateRecipe
  | serialize

/-- The value an engine operation returns. -/
inductive OpOutput where
  | money (v : ℚ)
  | moneyResult (v : Except PyError ℚ)
  | unitResult (v : Except PyError Unit)
  | record (d : RecipeRecord)

/-- State-passing form of each engine operation: the returned `Recipe` is
the recipe after the call.  The embedded bodies follow the source, which
contains no assignment to any ingredient attribute outside
`__post_init__`. -/
def runEngineOp : EngineOp → Recipe → Recipe × OpOutput
  | .totalCost, r => (r, .money (calculate_total_cost r))
  | .costPerServing, r => (r, .moneyResult (calculate_cost_per_serving r))
  | .validateRecipe, r => (r, .unitResult r.validate)
  | .serialize, r => (r, .record r.to_dict)

/-- The fold of `calculate_total_cost` is the sum of the per-ingredient
products. -/
theorem totalCost_foldl_eq_sum (l : List Ingredient) (a : ℚ) :
    l.foldl (fun total ing => total + ing.quantity * ing.price_per_unit) a =
      a + (l.map (fun ing => ing.quantity * ing.price_per_unit)).sum := by
  induction l generalizing a with
  | nil => simp
  | cons x xs ih =>
    simp only [List.foldl_cons, List.map_cons, List.sum_cons]
    rw [ih]
    ring

/-- Quantizing preserves non-negativity. -/
theorem quantizeHalfUp_nonneg (k : ℕ) {x : ℚ} (hx : 0 ≤ x) :
    0 ≤ quantizeHalfUp k x := by
  unfold quantizeHalfUp roundHalfAwayFromZero
  have h10 : (0 : ℚ) < (10 : ℚ) ^ k := by positivity
  have hxk : 0 ≤ x * (10 : ℚ) ^ k := by positivity
  rw [if_pos hxk]
  apply div_nonneg _ h10.le
  have hf : (0 : ℤ) ≤ ⌊x * (10 : ℚ) ^ k + 1 / 2⌋ :=
    Int.floor_nonneg.mpr (by linarith)
  exact_mod_cast hf

/-- Dropping a prefix of `p`-satisfying elements does not change `all p`. -/
theorem all_dropWhile_eq (p : Char → Bool) (l : List Char) :
    (l.dropWhile p).all p = l.all p := by
  induction l with
  | nil => rfl
  | cons x xs ih =>
    by_cases h : p x
    · simp [List.dropWhile_cons, h, ih]
    · simp [List.dropWhile_cons, h]

/-- `all p` is invariant under reversal. -/
theorem all_reverse_eq (p : Char → Bool) (l : List Char) :
    l.reverse.all p = l.all p := by
  induction l with
  | nil => rfl
  | cons x xs ih =>
    simp [List.reverse_cons, List.all_append, ih, Bool.and_comm]

/-- Stripping whitespace from both ends does not change blankness. -/
theorem blank_pyStrip (s : String) : blank (pyStrip s) = blank s := by
  show (((s.data.dropWhile Char.isWhitespace).reverse.dropWhile
      Char.isWhitespace).reverse).all Char.isWhitespace =
    s.data.all Char.isWhitespace
  rw [all_reverse_eq, all_dropWhile_eq, all_reverse_eq, all_dropWhile_eq]

/-- C1: for every recipe, `calculate_total_cost` equals the sum over the
ingredients of `quantity * price_per_unit`, rounded once to two decimal
places with round-half-up; and for every recipe with an empty ingredient
list the result is `0.00`. -/
theorem calculate_total_cost_spec :
    (∀ r : Recipe, calculate_total_cost r =
      quantizeHalfUp 2
        ((r.ingredients.map fun i => i.quantity * i.price_per_unit).sum))
    ∧ (∀ (nm : String) (s : ℤ), calculate_total_cost ⟨nm, [], s⟩ = 0) := by
  constructor
  · intro r
    unfold calculate_total_cost quantizeMoney
    rw [totalCost_foldl_eq_sum, zero_add]
  · intro nm s
    show quantizeMoney _ = 0
    norm_num [calculate_total_cost, quantizeMoney, quantizeHalfUp,
      roundHalfAwayFromZero]

/-- C2: `calculate_cost_per_serving` fails with the servings `ValueError`
(the spec's `InvalidServings`) whenever `servings ≤ 0`, and otherwise
returns `calculate_total_cost` divided by the servings, rounded to two
decimal places with round-half-up. -/
theorem calculate_cost_per_serving_spec (r : Recipe) :
    (r.servings ≤ 0 →
      calculate_cost_per_serving r =
        .error (.valueError "Servings must be >= 1"))
    ∧ (0 < r.servings →
      calculate_cost_per_serving r =
        .ok (quantizeHalfUp 2
          (calculate_total_cost r / (r.servings : ℚ)))) := by
  constructor
  · intro h
    unfold calculate_cost_per_serving
    rw [if_pos h]
  · intro h
    unfold calculate_cost_per_serving
    rw [if_neg (by omega)]
    rfl

/-- The G-and-T recipe of the repository's own test suite. -/
def gtRecipe : Recipe :=
  ⟨"GT", [⟨"Gin", 50, "ml", 1 / 50⟩, ⟨"Tonic", 150, "ml", 1 / 1000⟩], 2⟩

/-- Witness for C2 at the test-suite recipe: total 1.15, per serving
0.575 rounded half-up to 0.58. -/
theorem calculate_cost_per_serving_witness :
    calculate_cost_per_serving gtRecipe = .ok (29 / 50) := by
  have h := (calculate_cost_per_serving_spec gtRecipe).2 (by norm_num [gtRecipe])
  rw [h]
  norm_num [gtRecipe, calculate_total_cost, quantizeMoney, quantizeHalfUp,
    roundHalfAwayFromZero]

/-- C3: for an entered row price `P` and entered quantity `Q` and unit spec
`U`, the update of the price-per-unit cell derives
`quantize6 (P * (U / Q))` when `Q > 0` and `U > 0` (the cell showing its
two-decimal round-half-up rendering, `formatPpu`), and clears the cell
whenever `Q ≤ 0` or `U ≤ 0`, for every `P`. -/
theorem ppu_update_spec (P Q U : ℚ) :
    (0 < Q → 0 < U →
      updatePricePerUnitForRow (.num P) (.num Q) (.num U) =
        .setText (formatPpu (quantizeHalfUp 6 (P * (U / Q)))))
    ∧ ((Q ≤ 0 ∨ U ≤ 0) →
      updatePricePerUnitForRow (.num P) (.num Q) (.num U) = .clear) := by
  constructor
  · intro hQ hU
    simp only [updatePricePerUnitForRow, tryParse, parseOrZero]
    rw [if_pos ⟨hQ, hU⟩]
  · intro h
    simp only [updatePricePerUnitForRow, tryParse, parseOrZero]
    rw [if_neg (by rintro ⟨h1, h2⟩; rcases h with h | h <;> linarith)]

/-- Witness for C3 at the spec's concrete scenario: price 21, quantity 700,
unit spec 60 give 21 * 60 / 700 = 1.8, displayed as 1.80. -/
theorem ppu_update_witness :
    updatePricePerUnitForRow (.num 21) (.num 700) (.num 60) =
      .setText (9 / 5) := by
  have h := (ppu_update_spec 21 700 60).1 (by norm_num) (by norm_num)
  rw [h]
  norm_num [formatPpu, quantizeHalfUp, roundHalfAwayFromZero]

/-- A row with an entered row price and positive quantity yields the
ingredient with `price_per_unit = row_price / quantity`, whatever the
price-per-unit cell shows. -/
theorem rowIngredient_rowPrice (rname u : String) (p q : ℚ) (ppuCell : CellText)
    (hname : blank rname = false) (hq : 0 < q) (hp : 0 ≤ p) :
    rowIngredient ⟨rname, .num p, .num q, u, ppuCell⟩ =
      .ok (some ⟨pyStrip rname, q, pyStrip u, p / q⟩) := by
  simp [rowIngredient, parseDecimalOr0, tryParse, Ingredient.make,
    NumInput.normalize, blank_pyStrip, hname, hq, hq.not_le,
    (div_nonneg hp hq.le).not_lt, Except.instMonad, Except.bind, Except.pure]

/-- A row with no entered row price falls back to the displayed
price-per-unit cell. -/
theorem rowIngredient_noRowPrice (rname u : String) (q v : ℚ)
    (hname : blank rname = false) (hq : 0 < q) (hv : 0 ≤ v) :
    rowIngredient ⟨rname, .empty, .num q, u, .num v⟩ =
      .ok (some ⟨pyStrip rname, q, pyStrip u, v⟩) := by
  simp [rowIngredient, parseDecimalOr0, tryParse, Ingredient.make,
    NumInput.normalize, blank_pyStrip, hname, hq, hq.not_le, hv.not_lt,
    Except.instMonad, Except.bind, Except.pure]

/-- C4: in `get_recipe`, a row with an entered row price and quantity > 0
produces an ingredient whose `price_per_unit` is `row_price / quantity`
regardless of the price-per-unit cell simultaneously on display (so the row
contributes exactly the entered row price, `q * (p / q) = p`, to the total
cost); only a row with no entered row price uses the displayed
price-per-unit value. -/
theorem get_recipe_row_price_precedence (nm rname u : String) (p q v : ℚ)
    (rest : List RowData) (ppuCell : CellText)
    (hname : blank rname = false) (hq : 0 < q) (hp : 0 ≤ p) (hv : 0 ≤ v) :
    (get_recipe nm (⟨rname, .num p, .num q, u, ppuCell⟩ :: rest) =
      (collectIngredients rest).map
        (fun tl => ⟨pyStrip nm, ⟨pyStrip rname, q, pyStrip u, p / q⟩ :: tl, 1⟩))
    ∧ q * (p / q) = p
    ∧ (get_recipe nm (⟨rname, .empty, .num q, u, .num v⟩ :: rest) =
      (collectIngredients rest).map
        (fun tl => ⟨pyStrip nm, ⟨pyStrip rname, q, pyStrip u, v⟩ :: tl, 1⟩)) := by
  refine ⟨?_, mul_div_cancel₀ p hq.ne.symm, ?_⟩
  · unfold get_recipe
    simp only [collectIngredients,
      rowIngredient_rowPrice rname u p q ppuCell hname hq hp]
    cases hrest : collectIngredients rest <;>
      simp [Except.map, hrest, Except.instMonad, Except.bind]
  · unfold get_recipe
    simp only [collectIngredients,
      rowIngredient_noRowPrice rname u q v hname hq hv]
    cases hrest : collectIngredients rest <;>
      simp [Except.map, hrest, Except.instMonad, Except.bind]

/-- Witness for C4: a one-row table with row price 21, quantity 700 and a
conflicting displayed price-per-unit of 99 produces the ingredient with
price_per_unit 21/700. -/
theorem get_recipe_row_price_precedence_witness :
    get_recipe "Drink" [⟨"Gin", .num 21, .num 700, "ml", .num 99⟩] =
      .ok ⟨"Drink", [⟨"Gin", 700, "ml", 21 / 700⟩], 1⟩ := by
  have h := (get_recipe_row_price_precedence "Drink" "Gin" "ml" 21 700 99 []
    (.num 99) (by decide) (by norm_num) (by norm_num) (by norm_num)).1
  rw [h]
  rfl

/-- An ingredient satisfying the construction invariant survives the
serialize / deserialize round trip unchanged. -/
theorem ingredient_fromDict_toDict (i : Ingredient) (h : i.Valid) :
    Ingredient.from_dict (Ingredient.to_dict i) = .ok i := by
  obtain ⟨h1, h2, h3⟩ := h
  simp [Ingredient.from_dict, Ingredient.to_dict, getKey, parseDec,
    Ingredient.make, NumInput.normalize, h1, h2.not_le, h3.not_lt,
    Except.instMonad, Except.bind]

/-- The ingredient-list round trip, elementwise. -/
theorem ingredientsFromDicts_map (l : List Ingredient)
    (h : ∀ i ∈ l, i.Valid) :
    ingredientsFromDicts (l.map Ingredient.to_dict) = .ok l := by
  induction l with
  | nil => rfl
  | cons x xs ih =>
    simp only [List.map_cons, ingredientsFromDicts,
      ingredient_fromDict_toDict x (h x (List.mem_cons_self x xs)),
      ih fun i hi => h i (List.mem_cons_of_mem x hi)]
    rfl

/-- C5: for every recipe whose ingredients satisfy the construction
invariant, `from_dict (to_dict r)` succeeds and returns a recipe
structurally equal to `r` (name, servings and every ingredient field);
decimal fields travel as exact base-10 strings, modelled by the identical
rational values on both sides. -/
theorem recipe_roundtrip (r : Recipe) (h : ∀ i ∈ r.ingredients, i.Valid) :
    Recipe.from_dict (Recipe.to_dict r) = .ok r := by
  show Except.bind (ingredientsFromDicts (r.ingredients.map Ingredient.to_dict)) _ = _
  rw [ingredientsFromDicts_map r.ingredients h]
  rfl

/-- A concrete valid recipe for the round-trip witness. -/
def roundtripRecipe : Recipe :=
  ⟨"R", [⟨"A", 2, "u", 3⟩], 1⟩

/-- Witness for C5 at a concrete valid recipe. -/
theorem recipe_roundtrip_witness :
    Recipe.from_dict (Recipe.to_dict roundtripRecipe) = .ok roundtripRecipe := by
  apply recipe_roundtrip
  intro i hi
  simp only [roundtripRecipe, List.mem_singleton] at hi
  subst hi
  exact ⟨by decide, by norm_num, by norm_num⟩

/-- Counterexample to C6 as stated: the empty persisted record is missing
every key, yet `Recipe.from_dict` loads it without error, silently
defaulting the name to "", the ingredient list to [] and the servings
to 1. -/
theorem load_silent_default_counterexample :
    Recipe.from_dict ⟨none, none, none⟩ = .ok ⟨"", [], 1⟩ := rfl

/-- C6 as amended: ingredient-level malformation (a missing `name`,
`quantity` or `price_per_unit` key, or a non-numeric decimal string) fails
the load entirely, and one failing ingredient record fails the whole recipe
load (no partial-record recovery); but a missing ingredient `unit` key
defaults to "", and the recipe-level keys `name`, `servings` and
`ingredients` are silently defaulted to "", 1 and [] when missing. -/
theorem load_failfast_and_defaults :
    (∀ oq ou op2, Ingredient.from_dict ⟨none, oq, ou, op2⟩ =
      .error (.keyError "name"))
    ∧ (∀ n ou op2, Ingredient.from_dict ⟨some n, none, ou, op2⟩ =
      .error (.keyError "quantity"))
    ∧ (∀ n ou op2, Ingredient.from_dict ⟨some n, some .nonnum, ou, op2⟩ =
      .error .invalidOperation)
    ∧ (∀ n q ou, Ingredient.from_dict ⟨some n, some (.num q), ou, none⟩ =
      .error (.keyError "price_per_unit"))
    ∧ (∀ n q ou,
      Ingredient.from_dict ⟨some n, some (.num q), ou, some .nonnum⟩ =
        .error .invalidOperation)
    ∧ (∀ d e rest nm sv, Ingredient.from_dict d = .error e →
      Recipe.from_dict ⟨nm, sv, some (d :: rest)⟩ = .error e)
    ∧ (∀ n q p, blank n = false → 0 < q → 0 ≤ p →
      Ingredient.from_dict ⟨some n, some (.num q), none, some (.num p)⟩ =
        .ok ⟨n, q, "", p⟩)
    ∧ Recipe.from_dict ⟨none, none, none⟩ = .ok ⟨"", [], 1⟩ := by
  refine ⟨fun oq ou op2 => rfl, fun n ou op2 => rfl, fun n ou op2 => rfl,
    fun n q ou => rfl, fun n q ou => rfl, ?_, ?_, rfl⟩
  · intro d e rest nm sv hd
    show Except.bind (ingredientsFromDicts (d :: rest)) _ = _
    show Except.bind (Except.bind (Ingredient.from_dict d) _) _ = _
    rw [hd]
    rfl
  · intro n q p hn hq hp
    simp [Ingredient.from_dict, getKey, parseDec, Ingredient.make,
      NumInput.normalize, hn, hq.not_le, hp.not_lt, Except.instMonad,
      Except.bind]

/-- Witness for C6 (amended): a recipe record holding one ingredient record
with every key missing fails the whole load with the `name` key error. -/
theorem load_failfast_witness :
    Recipe.from_dict ⟨some "R", some 2, some [⟨none, none, none, none⟩]⟩ =
      .error (.keyError "name") :=
  load_failfast_and_defaults.2.2.2.2.2.1 ⟨none, none, none, none⟩
    (.keyError "name") [] (some "R") (some 2)
    (load_failfast_and_defaults.1 none none none)

/-- C7: `Ingredient` construction fails with a `ValueError` (the spec's
`ValidationError`) exactly when the name is blank, the normalized quantity
is ≤ 0, or the normalized price_per_unit is < 0; and on success the stored
fields are the exact decimal normalisations of the numeric inputs (int,
float or string), never a binary-float value. -/
theorem ingredient_validation_spec (n : String) (qi pi : NumInput) (u : String) :
    ((∃ msg, Ingredient.make n qi u pi = .error (.valueError msg)) ↔
      (blank n = true ∨ qi.normalize ≤ 0 ∨ pi.normalize < 0))
    ∧ (blank n = false → 0 < qi.normalize → 0 ≤ pi.normalize →
      Ingredient.make n qi u pi = .ok ⟨n, qi.normalize, u, pi.normalize⟩) := by
  simp only [Ingredient.make]
  constructor
  · constructor
    · rintro ⟨msg, hmsg⟩
      by_contra hcon
      push_neg at hcon
      obtain ⟨h1, h2, h3⟩ := hcon
      rw [if_neg h1, if_neg h2.not_le, if_neg h3.not_lt] at hmsg
      exact Except.noConfusion hmsg
    · rintro (h | h | h)
      · exact ⟨_, by rw [if_pos h]⟩
      · by_cases hb : blank n = true
        · exact ⟨_, by rw [if_pos hb]⟩
        · exact ⟨_, by rw [if_neg hb, if_pos h]⟩
      · by_cases hb : blank n = true
        · exact ⟨_, by rw [if_pos hb]⟩
        · by_cases h2 : qi.normalize ≤ 0
          · exact ⟨_, by rw [if_neg hb, if_pos h2]⟩
          · exact ⟨_, by rw [if_neg hb, if_neg h2, if_pos h]⟩
  · intro h1 h2 h3
    rw [if_neg (by simp [h1]), if_neg h2.not_le, if_neg h3.not_lt]

/-- Witness for C7 at the spec's concrete scenario 5: a blank name with
quantity 1 and float price 0.1 fails with a `ValueError`. -/
theorem ingredient_validation_witness :
    ∃ msg, Ingredient.make "" (.ofInt 1) "g" (.ofFloat (1 / 10)) =
      .error (.valueError msg) :=
  (ingredient_validation_spec "" (.ofInt 1) (.ofFloat (1 / 10)) "g").1.mpr
    (Or.inl (by decide))

/-- C8: no operation of the system mutates an existing `Ingredient`: every
engine operation consuming a recipe (total cost, cost per serving,
validation, serialization) leaves the recipe — and with it the name,
quantity, unit and price_per_unit of each of its ingredients — unchanged.
The embedded operation bodies follow the source, in which no attribute of an
`Ingredient` is assigned outside `__post_init__`; new `Ingredient` values
arise only from the validated constructor. -/
theorem engine_ops_preserve_recipe (op : EngineOp) (r : Recipe) :
    (runEngineOp op r).1 = r ∧
      ∀ i ∈ r.ingredients, i ∈ (runEngineOp op r).1.ingredients := by
  cases op <;> exact ⟨rfl, fun i hi => hi⟩

/-- C9: under the construction invariant, the total cost is non-negative,
and for servings ≥ 1 the cost per serving is a non-negative value. -/
theorem cost_nonneg (r : Recipe) (h : ∀ i ∈ r.ingredients, i.Valid) :
    0 ≤ calculate_total_cost r ∧
      (1 ≤ r.servings →
        ∃ v, calculate_cost_per_serving r = .ok v ∧ 0 ≤ v) := by
  have hsum : 0 ≤ (r.ingredients.map fun i =>
      i.quantity * i.price_per_unit).sum := by
    apply List.sum_nonneg
    intro a ha
    simp only [List.mem_map] at ha
    obtain ⟨i, hi, rfl⟩ := ha
    obtain ⟨-, h2, h3⟩ := h i hi
    exact mul_nonneg h2.le h3
  have htot : 0 ≤ calculate_total_cost r := by
    unfold calculate_total_cost quantizeMoney
    rw [totalCost_foldl_eq_sum, zero_add]
    exact quantizeHalfUp_nonneg 2 hsum
  refine ⟨htot, fun hs => ⟨quantizeMoney (calculate_total_cost r /
    (r.servings : ℚ)), ?_, ?_⟩⟩
  · unfold calculate_cost_per_serving
    rw [if_neg (by omega)]
  · exact quantizeHalfUp_nonneg 2 (div_nonneg htot
      (by exact_mod_cast (by omega : (0 : ℤ) ≤ r.servings)))

/-- Witness for C9 at the test-suite recipe. -/
theorem cost_nonneg_witness :
    0 ≤ calculate_total_cost gtRecipe ∧
      (1 ≤ gtRecipe.servings →
        ∃ v, calculate_cost_per_serving gtRecipe = .ok v ∧ 0 ≤ v) := by
  apply cost_nonneg
  intro i hi
  simp only [gtRecipe, List.mem_cons, List.not_mem_nil, or_false] at hi
  rcases hi with rfl | rfl
  · exact ⟨by decide, by norm_num, by norm_num⟩
  · exact ⟨by decide, by norm_num, by norm_num⟩

/-- C10: `Ingredient.from_dict` tolerates a missing `unit` key (defaulting
it to the empty string) while a missing `name`, `quantity` or
`price_per_unit` key fails with the `KeyError` naming that key. -/
theorem from_dict_unit_default (n : String) (q p : ℚ) (u : String)
    (hn : blank n = false) (hq : 0 < q) (hp : 0 ≤ p) :
    (Ingredient.from_dict ⟨some n, some (.num q), none, some (.num p)⟩ =
      .ok ⟨n, q, "", p⟩)
    ∧ (Ingredient.from_dict ⟨none, some (.num q), some u, some (.num p)⟩ =
      .error (.keyError "name"))
    ∧ (Ingredient.from_dict ⟨some n, none, some u, some (.num p)⟩ =
      .error (.keyError "quantity"))
    ∧ (Ingredient.from_dict ⟨some n, some (.num q), some u, none⟩ =
      .error (.keyError "price_per_unit")) := by
  refine ⟨?_, rfl, rfl, rfl⟩
  simp [Ingredient.from_dict, getKey, parseDec, Ingredient.make,
    NumInput.normalize, hn, hq.not_le, hp.not_lt, Except.instMonad,
    Except.bind]

/-- Witness for C10: a record with no `unit` key loads with unit "". -/
theorem from_dict_unit_default_witness :
    Ingredient.from_dict ⟨some "Gin", some (.num 2), none, some (.num 3)⟩ =
      .ok ⟨"Gin", 2, "", 3⟩ :=
  (from_dict_unit_default "Gin" 2 3 "ml" (by decide) (by norm_num)
    (by norm_num)).1

end CocktailCalc
